import Mathlib

/-!
Verification of the Ads ROI Simulator MCP server and its dashboard widget.

The computation service (src/server.ts, calculate_campaign_roi handler) is a
pure function of four numeric inputs; it is embedded here over the rationals,
with JavaScript Math.floor / Math.ceil rendered as Int.floor / Int.ceil.
The widget (web/widgets/dashboard.tsx) is embedded as explicit state-passing
functions for its handlers (ontoolresult, onteardown, onerror, the debounced
slider handler and the client-initiated recomputation path).  JSON
serialization between server and widget is abstracted: the text channel
carries a textual rendering, and the widget-side parse outcome is modelled as
an Option field on the inbound message.
-/

namespace AdsRoi

/-- The tool's argument record: the four sliders of the calculator
(src/server.ts inputSchema). -/
structure ParamSet where
  monthlyBudget : ℚ
  cpc : ℚ
  conversionRatePercent : ℚ
  averageOrderValue : ℚ
deriving DecidableEq

/-- The zod constraints on the input schema: monthlyBudget, cpc and
averageOrderValue positive, conversionRatePercent in [0, 100]. -/
def ValidParams (p : ParamSet) : Prop :=
  0 < p.monthlyBudget ∧ 0 < p.cpc ∧
  0 ≤ p.conversionRatePercent ∧ p.conversionRatePercent ≤ 100 ∧
  0 < p.averageOrderValue

/-- The metrics block of the result record (src/server.ts, Step 1-6). -/
structure Metrics where
  clicks : ℚ
  conversions : ℚ
  revenue : ℚ
  profit : ℚ
  roiPercent : ℚ
  breakEvenBudget : ℚ
deriving DecidableEq

/-- The chart data block: ten budget scenarios and the index-aligned
profit curve (src/server.ts, Step 7). -/
structure ChartData where
  budgetScenarios : List ℚ
  profitCurve : List ℚ
deriving DecidableEq

/-- The result record built in Step 8 of the handler, matching the widget's
RoiResult interface. -/
structure RoiResult where
  inputs : ParamSet
  metrics : Metrics
  chartData : ChartData
deriving DecidableEq

/-- One iteration of the Step-7 loop: from the loop index i it computes the
scenario budget pushed onto budgetScenarios (first component) and the
scenario profit pushed onto profitCurve (second component). -/
def scenarioEntry (cpc conversionRateDecimal averageOrderValue budgetStep : ℚ)
    (i : ℕ) : ℚ × ℚ :=
  let scenarioBudget : ℚ := ((⌊budgetStep * (i : ℚ)⌋ : ℤ) : ℚ)
  let scenarioClicks : ℚ := ((⌊scenarioBudget / cpc⌋ : ℤ) : ℚ)
  let scenarioConversions : ℚ := ((⌊scenarioClicks * conversionRateDecimal⌋ : ℤ) : ℚ)
  let scenarioRevenue : ℚ := scenarioConversions * averageOrderValue
  (scenarioBudget, scenarioRevenue - scenarioBudget)

/-- The ROI calculation business logic of the calculate_campaign_roi tool
handler (src/server.ts lines 180-245), step by step as in the source. -/
def calculate_campaign_roi (p : ParamSet) : RoiResult :=
  let clicks : ℚ := ((⌊p.monthlyBudget / p.cpc⌋ : ℤ) : ℚ)
  let conversions : ℚ := ((⌊clicks * (p.conversionRatePercent / 100)⌋ : ℤ) : ℚ)
  let revenue : ℚ := conversions * p.averageOrderValue
  let profit : ℚ := revenue - p.monthlyBudget
  let roiPercent : ℚ := (profit / p.monthlyBudget) * 100
  let conversionRateDecimal : ℚ := p.conversionRatePercent / 100
  let breakEvenBudget : ℚ :=
    if 0 < conversionRateDecimal ∧ 0 < p.averageOrderValue then
      ((⌈p.cpc / (conversionRateDecimal * p.averageOrderValue)⌉ : ℤ) : ℚ)
    else 0
  let maxBudget : ℚ := p.monthlyBudget * 2
  let budgetStep : ℚ := maxBudget / 9
  let budgetScenarios : List ℚ := (List.range 10).map fun i =>
    (scenarioEntry p.cpc conversionRateDecimal p.averageOrderValue budgetStep i).1
  let profitCurve : List ℚ := (List.range 10).map fun i =>
    (scenarioEntry p.cpc conversionRateDecimal p.averageOrderValue budgetStep i).2
  { inputs := p,
    metrics :=
      { clicks := clicks, conversions := conversions, revenue := revenue,
        profit := profit, roiPercent := roiPercent,
        breakEvenBudget := breakEvenBudget },
    chartData := { budgetScenarios := budgetScenarios, profitCurve := profitCurve } }

/-- The scenario parameters used by the spec's worked example. -/
def exampleParams : ParamSet :=
  { monthlyBudget := 10000, cpc := 5/2, conversionRatePercent := 5,
    averageOrderValue := 100 }

end AdsRoi

namespace AdsRoi

/-- C1: for every valid parameter set the returned metrics satisfy
clicks = floor(monthlyBudget/cpc), conversions = floor(clicks * rate/100),
revenue = conversions * AOV, profit = revenue - monthlyBudget and
roiPercent = (profit/monthlyBudget) * 100 exactly; and the worked example
(budget 10000, cpc 2.5, rate 5, AOV 100) yields clicks 4000,
conversions 200, revenue 20000, profit 10000, roiPercent 100. -/
theorem C1_metric_formulas (p : ParamSet) (h : ValidParams p) :
    (calculate_campaign_roi p).metrics.clicks =
      ((⌊p.monthlyBudget / p.cpc⌋ : ℤ) : ℚ) ∧
    (calculate_campaign_roi p).metrics.conversions =
      ((⌊(calculate_campaign_roi p).metrics.clicks *
          (p.conversionRatePercent / 100)⌋ : ℤ) : ℚ) ∧
    (calculate_campaign_roi p).metrics.revenue =
      (calculate_campaign_roi p).metrics.conversions * p.averageOrderValue ∧
    (calculate_campaign_roi p).metrics.profit =
      (calculate_campaign_roi p).metrics.revenue - p.monthlyBudget ∧
    (calculate_campaign_roi p).metrics.roiPercent =
      ((calculate_campaign_roi p).metrics.profit / p.monthlyBudget) * 100 ∧
    (calculate_campaign_roi exampleParams).metrics.clicks = 4000 ∧
    (calculate_campaign_roi exampleParams).metrics.conversions = 200 ∧
    (calculate_campaign_roi exampleParams).metrics.revenue = 20000 ∧
    (calculate_campaign_roi exampleParams).metrics.profit = 10000 ∧
    (calculate_campaign_roi exampleParams).metrics.roiPercent = 100 := by
  refine ⟨rfl, rfl, rfl, rfl, rfl, ?_, ?_, ?_, ?_, ?_⟩ <;>
    norm_num [calculate_campaign_roi, exampleParams]

/-- Witness for C1 at the spec's worked example. -/
theorem C1_metric_formulas_witness :
    (calculate_campaign_roi exampleParams).metrics.profit =
      (calculate_campaign_roi exampleParams).metrics.revenue -
        exampleParams.monthlyBudget :=
  (C1_metric_formulas exampleParams
    (by norm_num [ValidParams, exampleParams])).2.2.2.1

/-- A valid parameter set whose conversion rate is zero, for the degenerate
scenario of the spec. -/
def zeroRateParams : ParamSet :=
  { monthlyBudget := 10000, cpc := 5/2, conversionRatePercent := 0,
    averageOrderValue := 100 }

/-- C2: breakEvenBudget equals ceil(cpc / ((rate/100) * AOV)) when rate and
AOV are positive and 0 otherwise; with rate = 0 the result additionally has
conversions = 0 and profit = -monthlyBudget. -/
theorem C2_breakEvenBudget (p : ParamSet) (h : ValidParams p) :
    ((0 < p.conversionRatePercent ∧ 0 < p.averageOrderValue) →
      (calculate_campaign_roi p).metrics.breakEvenBudget =
        ((⌈p.cpc / ((p.conversionRatePercent / 100) * p.averageOrderValue)⌉ : ℤ) : ℚ)) ∧
    (¬(0 < p.conversionRatePercent ∧ 0 < p.averageOrderValue) →
      (calculate_campaign_roi p).metrics.breakEvenBudget = 0) ∧
    (p.conversionRatePercent = 0 →
      (calculate_campaign_roi p).metrics.breakEvenBudget = 0 ∧
      (calculate_campaign_roi p).metrics.conversions = 0 ∧
      (calculate_campaign_roi p).metrics.profit = -p.monthlyBudget) := by
  have hiff : 0 < p.conversionRatePercent / 100 ↔ 0 < p.conversionRatePercent := by
    rw [lt_div_iff₀ (show (0:ℚ) < 100 by norm_num)]
    simp
  refine ⟨?_, ?_, ?_⟩
  · rintro ⟨hc, ha⟩
    simp [calculate_campaign_roi, hiff.mpr hc, ha]
  · intro hn
    have hn2 : ¬(0 < p.conversionRatePercent / 100 ∧ 0 < p.averageOrderValue) := by
      rw [hiff]
      exact hn
    simp only [calculate_campaign_roi]
    rw [if_neg hn2]
  · intro h0
    simp [calculate_campaign_roi, h0]

/-- Witness for C2 at the zero-conversion-rate scenario. -/
theorem C2_breakEvenBudget_witness :
    (calculate_campaign_roi zeroRateParams).metrics.breakEvenBudget = 0 ∧
    (calculate_campaign_roi zeroRateParams).metrics.conversions = 0 ∧
    (calculate_campaign_roi zeroRateParams).metrics.profit =
      -zeroRateParams.monthlyBudget :=
  (C2_breakEvenBudget zeroRateParams
    (by norm_num [ValidParams, zeroRateParams])).2.2 rfl

/-- C3: each profitCurve entry equals the profit metric of a direct
calculate_campaign_roi call whose monthlyBudget is the matching
budgetScenarios entry (same cpc, conversion rate and AOV). -/
theorem C3_profitCurve_consistency (p : ParamSet) (h : ValidParams p)
    (i : ℕ) (hi : i < 10) :
    (calculate_campaign_roi p).chartData.profitCurve.getD i 0 =
      (calculate_campaign_roi
        { p with monthlyBudget :=
            (calculate_campaign_roi p).chartData.budgetScenarios.getD i 0 }).metrics.profit := by
  simp [calculate_campaign_roi, scenarioEntry, List.getD_eq_getElem?_getD,
        List.getElem?_map, List.getElem?_range, hi]

/-- Witness for C3 at the worked example and index 3. -/
theorem C3_profitCurve_consistency_witness :
    (calculate_campaign_roi exampleParams).chartData.profitCurve.getD 3 0 =
      (calculate_campaign_roi
        { exampleParams with monthlyBudget :=
            (calculate_campaign_roi exampleParams).chartData.budgetScenarios.getD 3 0 }).metrics.profit :=
  C3_profitCurve_consistency exampleParams
    (by norm_num [ValidParams, exampleParams]) 3 (by norm_num)

/-- C4: budgetScenarios has length 10, starts at 0, is non-decreasing, and
its i-th entry is floor((2 * monthlyBudget / 9) * i). -/
theorem C4_budgetScenarios (p : ParamSet) (h : ValidParams p) :
    (calculate_campaign_roi p).chartData.budgetScenarios.length = 10 ∧
    (calculate_campaign_roi p).chartData.budgetScenarios.getD 0 0 = 0 ∧
    (∀ i j : ℕ, i ≤ j → j < 10 →
      (calculate_campaign_roi p).chartData.budgetScenarios.getD i 0 ≤
        (calculate_campaign_roi p).chartData.budgetScenarios.getD j 0) ∧
    (∀ i : ℕ, i < 10 →
      (calculate_campaign_roi p).chartData.budgetScenarios.getD i 0 =
        ((⌊2 * p.monthlyBudget / 9 * (i : ℚ)⌋ : ℤ) : ℚ)) := by
  have key : ∀ i : ℕ, i < 10 →
      (calculate_campaign_roi p).chartData.budgetScenarios.getD i 0 =
        ((⌊p.monthlyBudget * 2 / 9 * (i : ℚ)⌋ : ℤ) : ℚ) := by
    intro i hi
    simp [calculate_campaign_roi, scenarioEntry, List.getD_eq_getElem?_getD,
          List.getElem?_map, List.getElem?_range, hi]
  have hstep : (0:ℚ) ≤ p.monthlyBudget * 2 / 9 := by
    have hB : 0 < p.monthlyBudget := h.1
    positivity
  refine ⟨?_, ?_, ?_, ?_⟩
  · simp [calculate_campaign_roi]
  · rw [key 0 (by norm_num)]
    norm_num
  · intro i j hij hj
    rw [key i (lt_of_le_of_lt hij hj), key j hj]
    have hmul : p.monthlyBudget * 2 / 9 * (i : ℚ) ≤ p.monthlyBudget * 2 / 9 * (j : ℚ) :=
      mul_le_mul_of_nonneg_left (by exact_mod_cast hij) hstep
    exact_mod_cast Int.floor_mono hmul
  · intro i hi
    rw [key i hi]
    have hcomm : p.monthlyBudget * 2 / 9 * (i : ℚ) = 2 * p.monthlyBudget / 9 * (i : ℚ) := by
      ring
    rw [hcomm]

/-- Witness for C4 at the worked example. -/
theorem C4_budgetScenarios_witness :
    (calculate_campaign_roi exampleParams).chartData.budgetScenarios.length = 10 :=
  (C4_budgetScenarios exampleParams
    (by norm_num [ValidParams, exampleParams])).1

/-- A content entry of a tool response; the handler only ever emits text
entries (src/server.ts lines 256-277). -/
inductive ContentItem where
  | text (s : String)
deriving DecidableEq

/-- Textual rendering of a result record for the text channel.  It stands in
for JSON.stringify(result, null, 2): the exact string shape is irrelevant to
the protocol, only that the text channel carries a rendering of the record. -/
def renderResult (r : RoiResult) : String :=
  "inputs.monthlyBudget=" ++ toString r.inputs.monthlyBudget ++
  " inputs.cpc=" ++ toString r.inputs.cpc ++
  " inputs.conversionRatePercent=" ++ toString r.inputs.conversionRatePercent ++
  " inputs.averageOrderValue=" ++ toString r.inputs.averageOrderValue ++
  " metrics.clicks=" ++ toString r.metrics.clicks ++
  " metrics.conversions=" ++ toString r.metrics.conversions ++
  " metrics.revenue=" ++ toString r.metrics.revenue ++
  " metrics.profit=" ++ toString r.metrics.profit ++
  " metrics.roiPercent=" ++ toString r.metrics.roiPercent ++
  " metrics.breakEvenBudget=" ++ toString r.metrics.breakEvenBudget

/-- The shape of a tool handler response at the MCP boundary: a content
list, an optional structured payload and the error flag. -/
structure ToolResponse where
  content : List ContentItem
  structuredContent : Option RoiResult
  isError : Bool
deriving DecidableEq

/-- The success return of the calculate_campaign_roi handler
(src/server.ts lines 256-263): text rendering plus structuredContent. -/
def successResponse (p : ParamSet) : ToolResponse :=
  let result := calculate_campaign_roi p
  { content := [ContentItem.text (renderResult result)],
    structuredContent := some result,
    isError := false }

/-- The catch-branch return of the calculate_campaign_roi handler
(src/server.ts lines 271-277): an error text entry and isError true; no
structuredContent field is set there. -/
def errorResponse (msg : String) : ToolResponse :=
  { content := [ContentItem.text ("Error calculating ROI: " ++ msg)],
    structuredContent := none,
    isError := true }

/-- A response carries both delivery channels: at least one text content
entry and a present structured result record. -/
def carriesBothChannels (resp : ToolResponse) : Prop :=
  (∃ s, ContentItem.text s ∈ resp.content) ∧ resp.structuredContent.isSome = true

/-- C5 counterexample: the handler's error return carries no
structuredContent, so not every response carries both channels. -/
theorem C5_error_lacks_structured :
    ¬ carriesBothChannels (errorResponse "calculation failed") := by
  intro hc
  simpa [errorResponse, carriesBothChannels] using hc.2

/-- C5 (amended): every success response carries both channels; the error
return carries only the text channel, with isError set and structuredContent
absent. -/
theorem C5_dual_channel (p : ParamSet) (msg : String) :
    carriesBothChannels (successResponse p) ∧
    (∃ s, ContentItem.text s ∈ (errorResponse msg).content) ∧
    (errorResponse msg).structuredContent = none ∧
    (errorResponse msg).isError = true := by
  refine ⟨⟨⟨renderResult (calculate_campaign_roi p), ?_⟩, rfl⟩,
    ⟨"Error calculating ROI: " ++ msg, ?_⟩, rfl, rfl⟩
  · simp [successResponse]
  · simp [errorResponse]

/-- The widget's React state relevant to data flow: the displayed result,
the loading flag and the slider inputs (dashboard.tsx lines 54-61). -/
structure WidgetUIState where
  data : Option RoiResult
  loading : Bool
  inputs : ParamSet
deriving DecidableEq

/-- The useState defaults of the sliders (dashboard.tsx lines 56-61). -/
def defaultInputs : ParamSet :=
  { monthlyBudget := 10000, cpc := 5/2, conversionRatePercent := 5,
    averageOrderValue := 100 }

/-- The continuation of calculateRoi after callServerTool resolves
(dashboard.tsx lines 156-167): the parsed payload is stored with setData
unconditionally, and the loading flag cleared; the slider inputs are not
touched and no request identifier is consulted. -/
def calculateRoiResolve (st : WidgetUIState) (payload : RoiResult) : WidgetUIState :=
  { st with data := some payload, loading := false }

/-- An in-flight recomputation response: the index of the request that
issued it (1-based issue order) and its parsed payload. -/
structure Arrival where
  reqIndex : ℕ
  payload : RoiResult
deriving DecidableEq

/-- Processing of recomputation responses in arrival order: each arrival
runs the calculateRoi continuation on the current widget state. -/
def processArrivals (st : WidgetUIState) (arrivals : List Arrival) : WidgetUIState :=
  arrivals.foldl (fun s a => calculateRoiResolve s a.payload) st

/-- A lower-budget parameter set used to distinguish two overlapping
recomputation requests. -/
def smallBudgetParams : ParamSet :=
  { monthlyBudget := 1000, cpc := 5/2, conversionRatePercent := 5,
    averageOrderValue := 100 }

/-- A higher-budget parameter set used to distinguish two overlapping
recomputation requests. -/
def largeBudgetParams : ParamSet :=
  { monthlyBudget := 2000, cpc := 5/2, conversionRatePercent := 5,
    averageOrderValue := 100 }

/-- C6 counterexample: request 1 and request 2 overlap, request 2's response
is applied first, then request 1's late response arrives; the displayed data
is request 1's result, not the most recently issued request 2's result, so
last-request-wins fails (the widget attaches no sequence number). -/
theorem C6_late_response_overwrites :
    (processArrivals
        { data := none, loading := true, inputs := defaultInputs }
        [{ reqIndex := 2, payload := calculate_campaign_roi largeBudgetParams },
         { reqIndex := 1, payload := calculate_campaign_roi smallBudgetParams }]).data ≠
      some (calculate_campaign_roi largeBudgetParams) := by
  intro hEq
  have h1 : calculate_campaign_roi smallBudgetParams =
      calculate_campaign_roi largeBudgetParams := by
    simpa [processArrivals, calculateRoiResolve] using hEq
  have h2 := congrArg (fun r => r.inputs.monthlyBudget) h1
  simp only [calculate_campaign_roi, smallBudgetParams, largeBudgetParams] at h2
  norm_num at h2

/-- C6 (amended): responses are applied in arrival order and the displayed
data is the payload of the most recently arrived response
(last-response-wins); no request sequence number is consulted. -/
theorem C6_last_response_wins (arrivals : List Arrival) (st : WidgetUIState)
    (h : arrivals ≠ []) :
    (processArrivals st arrivals).data = arrivals.getLast?.map Arrival.payload := by
  induction arrivals generalizing st with
  | nil => exact absurd rfl h
  | cons a rest ih =>
    cases rest with
    | nil => simp [processArrivals, calculateRoiResolve]
    | cons b rest2 =>
      have hne : b :: rest2 ≠ [] := by simp
      have hstep := ih (calculateRoiResolve st a.payload) hne
      simpa [processArrivals, List.getLast?_cons_cons] using hstep

/-- Witness for the amended C6 on a single-response arrival list. -/
theorem C6_last_response_wins_witness :
    (processArrivals
        { data := none, loading := true, inputs := defaultInputs }
        [{ reqIndex := 1, payload := calculate_campaign_roi smallBudgetParams }]).data =
      ([{ reqIndex := 1, payload := calculate_campaign_roi smallBudgetParams }] :
        List Arrival).getLast?.map Arrival.payload :=
  C6_last_response_wins
    [{ reqIndex := 1, payload := calculate_campaign_roi smallBudgetParams }]
    { data := none, loading := true, inputs := defaultInputs }
    (by simp)

/-- The four slider keys of the widget (dashboard.tsx inputs record). -/
inductive ParamKey where
  | monthlyBudget
  | cpc
  | conversionRatePercent
  | averageOrderValue
deriving DecidableEq

/-- Functional update of one slider field, the spread-update
newInputs = (...inputs, key: value) of handleSliderChange. -/
def setParam (p : ParamSet) (k : ParamKey) (v : ℚ) : ParamSet :=
  match k with
  | ParamKey.monthlyBudget => { p with monthlyBudget := v }
  | ParamKey.cpc => { p with cpc := v }
  | ParamKey.conversionRatePercent => { p with conversionRatePercent := v }
  | ParamKey.averageOrderValue => { p with averageOrderValue := v }

/-- The widget state that drives the debounce logic: the slider inputs, the
single pending timer slot (debounceTimeoutRef with the arguments the armed
timer would send), and whether the chart instance is alive. -/
structure DebounceState where
  inputs : ParamSet
  pendingCall : Option ParamSet
  chartAlive : Bool
deriving DecidableEq

/-- handleSliderChange (dashboard.tsx lines 174-190): merge the edited key
into the inputs, clear any previous timeout and arm a new one carrying the
merged inputs. -/
def handleSliderChange (st : DebounceState) (k : ParamKey) (v : ℚ) : DebounceState :=
  let newInputs := setParam st.inputs k v
  { st with inputs := newInputs, pendingCall := some newInputs }

/-- A sequence of slider edits arriving within one debounce window (no timer
fires in between, each edit cancels and re-arms the single timer). -/
def applyEdits (st : DebounceState) (edits : List (ParamKey × ℚ)) : DebounceState :=
  edits.foldl (fun s e => handleSliderChange s e.1 e.2) st

/-- The debounce timer firing: if a timer is armed, it issues exactly the
recomputation call it was armed with and consumes the slot; a cleared slot
fires nothing. -/
def fireTimer (st : DebounceState) : DebounceState × List ParamSet :=
  match st.pendingCall with
  | some args => ({ st with pendingCall := none }, [args])
  | none => (st, [])

/-- The empty acknowledgment object returned by the teardown handler. -/
structure EmptyAck where
deriving DecidableEq

/-- app.onteardown (dashboard.tsx lines 103-116): clear the pending debounce
timeout, destroy the chart instance, return the empty object. -/
def onteardown (st : DebounceState) : DebounceState × EmptyAck :=
  ({ st with pendingCall := none, chartAlive := false }, EmptyAck.mk)

/-- The events that can reach the debounce/teardown logic. -/
inductive WidgetEvent where
  | edit (k : ParamKey) (v : ℚ)
  | timerFire
  | teardown
deriving DecidableEq

/-- Whether an event is a user slider edit. -/
def WidgetEvent.isEdit : WidgetEvent → Bool
  | WidgetEvent.edit _ _ => true
  | WidgetEvent.timerFire => false
  | WidgetEvent.teardown => false

/-- One event step of the widget lifecycle, returning the next state and
the recomputation calls issued by the step. -/
def stepEvent (st : DebounceState) (e : WidgetEvent) : DebounceState × List ParamSet :=
  match e with
  | WidgetEvent.edit k v => (handleSliderChange st k v, [])
  | WidgetEvent.timerFire => fireTimer st
  | WidgetEvent.teardown => ((onteardown st).1, [])

/-- Run a sequence of events, collecting all recomputation calls issued. -/
def runEvents (st : DebounceState) (evs : List WidgetEvent) : DebounceState × List ParamSet :=
  match evs with
  | [] => (st, [])
  | e :: rest =>
    let r := stepEvent st e
    let r2 := runEvents r.1 rest
    (r2.1, r.2 ++ r2.2)

/-- The widget state at mount: default sliders, no timer armed, chart
alive. -/
def initialDebounceState : DebounceState :=
  { inputs := defaultInputs, pendingCall := none, chartAlive := true }

/-- After a whole edit sequence, the inputs are the left fold of the
single-field updates. -/
theorem applyEdits_inputs (edits : List (ParamKey × ℚ)) (st : DebounceState) :
    (applyEdits st edits).inputs =
      edits.foldl (fun p e => setParam p e.1 e.2) st.inputs := by
  induction edits generalizing st with
  | nil => rfl
  | cons e rest ih =>
    have hstep := ih (handleSliderChange st e.1 e.2)
    simpa [applyEdits, handleSliderChange] using hstep

/-- After a nonempty edit sequence, the armed timer carries exactly the
current (post-edit) inputs. -/
theorem applyEdits_pending (edits : List (ParamKey × ℚ)) (st : DebounceState)
    (h : edits ≠ []) :
    (applyEdits st edits).pendingCall = some ((applyEdits st edits).inputs) := by
  induction edits generalizing st with
  | nil => exact absurd rfl h
  | cons e rest ih =>
    cases rest with
    | nil => simp [applyEdits, handleSliderChange]
    | cons e2 rest2 =>
      have hne : e2 :: rest2 ≠ [] := by simp
      have hstep := ih (handleSliderChange st e.1 e.2) hne
      simpa [applyEdits] using hstep

/-- C7: N edits inside one debounce window arm a single timer; when it
fires, exactly one recomputation call is issued and it carries the values
after the last edit; and each edit replaces the previously armed timer with
one carrying the freshly merged inputs. -/
theorem C7_debounce_single_call (st : DebounceState) (edits : List (ParamKey × ℚ))
    (k : ParamKey) (v : ℚ) (h : edits ≠ []) :
    (fireTimer (applyEdits st edits)).2 =
      [edits.foldl (fun p e => setParam p e.1 e.2) st.inputs] ∧
    (fireTimer (applyEdits st edits)).1.pendingCall = none ∧
    (handleSliderChange st k v).pendingCall = some (setParam st.inputs k v) := by
  have hp := applyEdits_pending edits st h
  have hi := applyEdits_inputs edits st
  refine ⟨?_, ?_, ?_⟩
  · simp [fireTimer, hp, hi]
  · simp [fireTimer, hp]
  · simp [handleSliderChange]

/-- Witness for C7 with a single cpc edit from the mount state. -/
theorem C7_debounce_single_call_witness :
    (fireTimer (applyEdits initialDebounceState [(ParamKey.cpc, 3)])).2 =
      [[(ParamKey.cpc, 3)].foldl (fun p e => setParam p e.1 e.2)
        initialDebounceState.inputs] ∧
    (fireTimer (applyEdits initialDebounceState [(ParamKey.cpc, 3)])).1.pendingCall = none ∧
    (handleSliderChange initialDebounceState ParamKey.cpc 3).pendingCall =
      some (setParam initialDebounceState.inputs ParamKey.cpc 3) :=
  C7_debounce_single_call initialDebounceState [(ParamKey.cpc, 3)]
    ParamKey.cpc 3 (by simp)

/-- From a state with no armed timer, a sequence of non-edit events issues
no recomputation call: a fired slot is empty and teardown keeps it empty. -/
theorem runEvents_no_calls (evs : List WidgetEvent) (st : DebounceState)
    (hp : st.pendingCall = none) (h : ∀ e ∈ evs, e.isEdit = false) :
    (runEvents st evs).2 = [] := by
  induction evs generalizing st with
  | nil => rfl
  | cons e rest ih =>
    have h2 : ∀ x ∈ rest, WidgetEvent.isEdit x = false := by
      intro x hx
      exact h x (by simp [hx])
    cases e with
    | edit k v =>
      have := h (WidgetEvent.edit k v) (by simp)
      simp [WidgetEvent.isEdit] at this
    | timerFire =>
      have hrest := ih st hp h2
      simp [runEvents, stepEvent, fireTimer, hp, hrest]
    | teardown =>
      have hpn : ((onteardown st).1).pendingCall = none := rfl
      have hrest := ih ((onteardown st).1) hpn h2
      simp [runEvents, stepEvent, hrest]

/-- C8: teardown cancels the pending debounce timer, destroys the chart and
returns the empty acknowledgment object; afterwards a widget that receives
no further edits (it is destroyed) never issues a recomputation call. -/
theorem C8_teardown_cleanup (st : DebounceState) (evs : List WidgetEvent)
    (h : ∀ e ∈ evs, e.isEdit = false) :
    (onteardown st).1.pendingCall = none ∧
    (onteardown st).1.chartAlive = false ∧
    (onteardown st).2 = EmptyAck.mk ∧
    (runEvents (onteardown st).1 evs).2 = [] := by
  refine ⟨rfl, rfl, rfl, ?_⟩
  exact runEvents_no_calls evs (onteardown st).1 rfl h

/-- Witness for C8: teardown with an armed timer, followed by the (now
cancelled) timer deadline passing. -/
theorem C8_teardown_cleanup_witness :
    (onteardown (handleSliderChange initialDebounceState ParamKey.cpc 3)).1.pendingCall = none ∧
    (onteardown (handleSliderChange initialDebounceState ParamKey.cpc 3)).1.chartAlive = false ∧
    (onteardown (handleSliderChange initialDebounceState ParamKey.cpc 3)).2 = EmptyAck.mk ∧
    (runEvents (onteardown (handleSliderChange initialDebounceState ParamKey.cpc 3)).1
      [WidgetEvent.timerFire]).2 = [] :=
  C8_teardown_cleanup (handleSliderChange initialDebounceState ParamKey.cpc 3)
    [WidgetEvent.timerFire] (by simp [WidgetEvent.isEdit])

/-- An inbound tool result message at the widget boundary
(dashboard.tsx ontoolresult): the error flag, whether a first content entry
exists, and the outcome of JSON.parse on the joined text — parsing is
abstracted as an Option: some on success, none when the payload cannot be
parsed. -/
structure CallToolResultMsg where
  isError : Bool
  hasContent : Bool
  parsedPayload : Option RoiResult
deriving DecidableEq

/-- app.ontoolresult (dashboard.tsx lines 77-97): early-return with the
loading flag cleared on isError or missing content; on parse success store
the record and overwrite the sliders with its echoed inputs; on parse
failure log and clear the loading flag. -/
def ontoolresult (st : WidgetUIState) (msg : CallToolResultMsg) : WidgetUIState :=
  if msg.isError = true ∨ msg.hasContent = false then
    { st with loading := false }
  else
    match msg.parsedPayload with
    | some r => { data := some r, loading := false, inputs := r.inputs }
    | none => { st with loading := false }

/-- app.onerror (dashboard.tsx lines 136-139): log the reason and clear the
loading flag; nothing else changes. -/
def onerror (st : WidgetUIState) : WidgetUIState :=
  { st with loading := false }

/-- What the component renders (dashboard.tsx lines 263-434). -/
inductive View where
  | errorView (msg : String)
  | connectingView
  | loadingView
  | dataView (r : RoiResult)
  | noDataView
deriving DecidableEq

/-- Whether a view is the error view. -/
def View.isErrorView : View → Bool
  | View.errorView _ => true
  | View.connectingView => false
  | View.loadingView => false
  | View.dataView _ => false
  | View.noDataView => false

/-- The render branch structure of the component: the error view only when
the useApp hook reports a connection error, then the connecting gate, then
the loading gate, then the data/no-data split. -/
def render (useAppError : Option String) (appReady : Bool) (st : WidgetUIState) : View :=
  match useAppError with
  | some m => View.errorView m
  | none =>
    if appReady = false then View.connectingView
    else if st.loading = true then View.loadingView
    else
      match st.data with
      | some r => View.dataView r
      | none => View.noDataView

/-- An initial widget state still waiting for its first result. -/
def mountState : WidgetUIState :=
  { data := none, loading := true, inputs := defaultInputs }

/-- An inbound tool result whose payload does not parse. -/
def parseFailMsg : CallToolResultMsg :=
  { isError := false, hasContent := true, parsedPayload := none }

/-- C9 counterexample: after a transport error or an unparsable tool result
the widget renders the no-data (or stale-data) view, not its error view, so
it does not transition to an Error state. -/
theorem C9_no_error_transition :
    (render none true (onerror mountState)).isErrorView = false ∧
    (render none true (ontoolresult mountState parseFailMsg)).isErrorView = false := by
  constructor <;> rfl

/-- C9 (amended): on a transport error or a parse failure the widget merely
clears its loading flag, keeps its previous data and inputs, and keeps
rendering a non-error view; the handlers are total, so the widget does not
crash. -/
theorem C9_failure_recovery (st : WidgetUIState) (msg : CallToolResultMsg)
    (hmsg : msg.parsedPayload = none) :
    (onerror st).data = st.data ∧
    (onerror st).inputs = st.inputs ∧
    (onerror st).loading = false ∧
    (render none true (onerror st)).isErrorView = false ∧
    (ontoolresult st msg).data = st.data ∧
    (ontoolresult st msg).loading = false ∧
    (render none true (ontoolresult st msg)).isErrorView = false := by
  have hdata : (ontoolresult st msg).data = st.data := by
    by_cases hc : msg.isError = true ∨ msg.hasContent = false
    · simp [ontoolresult, hc]
    · simp [ontoolresult, hc, hmsg]
  have hload : (ontoolresult st msg).loading = false := by
    by_cases hc : msg.isError = true ∨ msg.hasContent = false
    · simp [ontoolresult, hc]
    · simp [ontoolresult, hc, hmsg]
  refine ⟨rfl, rfl, rfl, ?_, hdata, hload, ?_⟩
  · cases hd : st.data <;> simp [render, onerror, View.isErrorView, hd]
  · cases hd : (ontoolresult st msg).data <;>
      simp [render, hload, View.isErrorView, hd]

/-- Witness for the amended C9 at the mount state and a parse failure. -/
theorem C9_failure_recovery_witness :
    (onerror mountState).data = mountState.data ∧
    (onerror mountState).inputs = mountState.inputs ∧
    (onerror mountState).loading = false ∧
    (render none true (onerror mountState)).isErrorView = false ∧
    (ontoolresult mountState parseFailMsg).data = mountState.data ∧
    (ontoolresult mountState parseFailMsg).loading = false ∧
    (render none true (ontoolresult mountState parseFailMsg)).isErrorView = false :=
  C9_failure_recovery mountState parseFailMsg rfl

/-- C10: the result record echoes the argument parameter set unchanged in
its inputs field, and a successfully parsed tool result overwrites the
widget's slider state with that echoed inputs record, whatever the local
defaults were. -/
theorem C10_inputs_echo (p : ParamSet) (st : WidgetUIState) (r : RoiResult) :
    (calculate_campaign_roi p).inputs = p ∧
    (ontoolresult st
        { isError := false, hasContent := true, parsedPayload := some r }).inputs =
      r.inputs := by
  refine ⟨rfl, ?_⟩
  simp [ontoolresult]

end AdsRoi
